import Mathlib

/-!
Verification of the rfi-tracker vendor-evaluation core:
the weighted score aggregator, the vote decision resolver, the
persisted-vote invariant, the deployment-error API handler and the
database connection retry loop, embedded shallowly from the sources.
-/

namespace RfiTracker

/-- The 18 per-criterion raw scores (each 0–10) of one evaluation, mirroring
the fields of the `Evaluation` interface in
`src/components/VendorEvaluation.tsx.new` (remarks omitted: they do not enter
the score computation). Scores are modelled as exact rationals. -/
structure Scores where
  experienceScore : ℚ
  caseStudiesScore : ℚ
  domainExperienceScore : ℚ
  approachAlignmentScore : ℚ
  understandingChallengesScore : ℚ
  solutionTailoringScore : ℚ
  strategyAlignmentScore : ℚ
  methodologyScore : ℚ
  innovativeStrategiesScore : ℚ
  stakeholderEngagementScore : ℚ
  toolsFrameworkScore : ℚ
  costStructureScore : ℚ
  costEffectivenessScore : ℚ
  roiScore : ℚ
  referencesScore : ℚ
  testimonialsScore : ℚ
  sustainabilityScore : ℚ
  deliverablesScore : ℚ
deriving DecidableEq

/-- Embedding of `calculateWeightedScore` from
`src/components/VendorEvaluation.tsx.new` lines 86–128: six category
sub-scores (each a weighted sum of per-criterion contributions times 100)
are added to give the overall percentage. -/
def calculateWeightedScore (scores : Scores) : ℚ :=
  -- 1. Relevance and Quality of Experience (25%)
  let experienceWeight :=
    ((scores.experienceScore / 10 * 0.10) +
     (scores.caseStudiesScore / 10 * 0.10) +
     (scores.domainExperienceScore / 10 * 0.05)) * 100
  -- 2. Understanding of Project Objectives (20%)
  let understandingWeight :=
    ((scores.approachAlignmentScore / 10 * 0.07) +
     (scores.understandingChallengesScore / 10 * 0.07) +
     (scores.solutionTailoringScore / 10 * 0.06)) * 100
  -- 3. Proposed Approach and Methodology (26%)
  let methodologyWeight :=
    ((scores.strategyAlignmentScore / 10 * 0.07) +
     (scores.methodologyScore / 10 * 0.06) +
     (scores.innovativeStrategiesScore / 10 * 0.05) +
     (scores.stakeholderEngagementScore / 10 * 0.05) +
     (scores.toolsFrameworkScore / 10 * 0.03)) * 100
  -- 4. Cost and Value for Money (14%)
  let costWeight :=
    ((scores.costStructureScore / 10 * 0.06) +
     (scores.costEffectivenessScore / 10 * 0.05) +
     (scores.roiScore / 10 * 0.03)) * 100
  -- 5. References and Testimonials (10%)
  let referencesWeight :=
    ((scores.referencesScore / 10 * 0.06) +
     (scores.testimonialsScore / 10 * 0.02) +
     (scores.sustainabilityScore / 10 * 0.02)) * 100
  -- 6. Deliverable Completeness (5%)
  let deliverablesWeight := (scores.deliverablesScore / 10 * 0.05) * 100
  experienceWeight + understandingWeight + methodologyWeight +
    costWeight + referencesWeight + deliverablesWeight

/-- The 18 leaf criteria of the rubric, one per score field. -/
inductive Criterion where
  | experience
  | caseStudies
  | domainExperience
  | approachAlignment
  | understandingChallenges
  | solutionTailoring
  | strategyAlignment
  | methodology
  | innovativeStrategies
  | stakeholderEngagement
  | toolsFramework
  | costStructure
  | costEffectiveness
  | roi
  | references
  | testimonials
  | sustainability
  | deliverables
deriving DecidableEq, Repr

/-- The fixed weight fraction of each leaf criterion, as annotated in the
source of `calculateWeightedScore`. -/
def weight : Criterion → ℚ
  | .experience => 0.10
  | .caseStudies => 0.10
  | .domainExperience => 0.05
  | .approachAlignment => 0.07
  | .understandingChallenges => 0.07
  | .solutionTailoring => 0.06
  | .strategyAlignment => 0.07
  | .methodology => 0.06
  | .innovativeStrategies => 0.05
  | .stakeholderEngagement => 0.05
  | .toolsFramework => 0.03
  | .costStructure => 0.06
  | .costEffectiveness => 0.05
  | .roi => 0.03
  | .references => 0.06
  | .testimonials => 0.02
  | .sustainability => 0.02
  | .deliverables => 0.05

/-- The raw value a given criterion has in a `Scores` record. -/
def scoreValue (s : Scores) : Criterion → ℚ
  | .experience => s.experienceScore
  | .caseStudies => s.caseStudiesScore
  | .domainExperience => s.domainExperienceScore
  | .approachAlignment => s.approachAlignmentScore
  | .understandingChallenges => s.understandingChallengesScore
  | .solutionTailoring => s.solutionTailoringScore
  | .strategyAlignment => s.strategyAlignmentScore
  | .methodology => s.methodologyScore
  | .innovativeStrategies => s.innovativeStrategiesScore
  | .stakeholderEngagement => s.stakeholderEngagementScore
  | .toolsFramework => s.toolsFrameworkScore
  | .costStructure => s.costStructureScore
  | .costEffectiveness => s.costEffectivenessScore
  | .roi => s.roiScore
  | .references => s.referencesScore
  | .testimonials => s.testimonialsScore
  | .sustainability => s.sustainabilityScore
  | .deliverables => s.deliverablesScore

/-- All 18 leaf criteria in rubric order. -/
def allCriteria : List Criterion :=
  [.experience, .caseStudies, .domainExperience,
   .approachAlignment, .understandingChallenges, .solutionTailoring,
   .strategyAlignment, .methodology, .innovativeStrategies,
   .stakeholderEngagement, .toolsFramework,
   .costStructure, .costEffectiveness, .roi,
   .references, .testimonials, .sustainability,
   .deliverables]

/-- The per-criterion reference formula of the spec: overall score as the sum
over all 18 criteria of (value / 10) × weight × 100. -/
def referenceScore (s : Scores) : ℚ :=
  (allCriteria.map (fun c => scoreValue s c / 10 * weight c * 100)).sum

/-- The criteria of each of the six rubric categories, in source order. -/
def experienceCriteria : List Criterion :=
  [.experience, .caseStudies, .domainExperience]

def objectivesCriteria : List Criterion :=
  [.approachAlignment, .understandingChallenges, .solutionTailoring]

def methodologyCriteria : List Criterion :=
  [.strategyAlignment, .methodology, .innovativeStrategies,
   .stakeholderEngagement, .toolsFramework]

def costCriteria : List Criterion :=
  [.costStructure, .costEffectiveness, .roi]

def referencesCriteria : List Criterion :=
  [.references, .testimonials, .sustainability]

def deliverablesCriteria : List Criterion :=
  [.deliverables]

/-- The `Scores` record with every criterion set to the same value `v`. -/
def constScores (v : ℚ) : Scores :=
  ⟨v, v, v, v, v, v, v, v, v, v, v, v, v, v, v, v, v, v⟩

/-- Pointwise scaling of a `Scores` record by a factor `k`. -/
def scaleScores (k : ℚ) (s : Scores) : Scores where
  experienceScore := k * s.experienceScore
  caseStudiesScore := k * s.caseStudiesScore
  domainExperienceScore := k * s.domainExperienceScore
  approachAlignmentScore := k * s.approachAlignmentScore
  understandingChallengesScore := k * s.understandingChallengesScore
  solutionTailoringScore := k * s.solutionTailoringScore
  strategyAlignmentScore := k * s.strategyAlignmentScore
  methodologyScore := k * s.methodologyScore
  innovativeStrategiesScore := k * s.innovativeStrategiesScore
  stakeholderEngagementScore := k * s.stakeholderEngagementScore
  toolsFrameworkScore := k * s.toolsFrameworkScore
  costStructureScore := k * s.costStructureScore
  costEffectivenessScore := k * s.costEffectivenessScore
  roiScore := k * s.roiScore
  referencesScore := k * s.referencesScore
  testimonialsScore := k * s.testimonialsScore
  sustainabilityScore := k * s.sustainabilityScore
  deliverablesScore := k * s.deliverablesScore

/-! ## Decision resolver and votes -/

/-- A vote value, the `vote` column of `VendorVote` in `prisma/schema.prisma`
("ACCEPT" or "REJECT"). -/
inductive Vote where
  | ACCEPT
  | REJECT
deriving DecidableEq, Repr

/-- A final-decision outcome for a vendor. -/
inductive Decision where
  | ACCEPTED
  | REJECTED
  | PENDING
deriving DecidableEq, Repr

/-- One cast vote, in chronological order inside a vote sequence: the voter
and the value. -/
structure CastVote where
  userId : Nat
  vote : Vote
deriving DecidableEq, Repr

/-- Keep, for each distinct voter, only the most recent (last) vote in the
chronological sequence. -/
def latestPerVoter : List CastVote → List CastVote
  | [] => []
  | v :: rest =>
      if rest.any (fun w => w.userId = v.userId) then latestPerVoter rest
      else v :: latestPerVoter rest

/-- Number of ACCEPT votes among the latest vote per distinct voter. -/
def acceptCount (votes : List CastVote) : Nat :=
  ((latestPerVoter votes).filter (fun v => v.vote = Vote.ACCEPT)).length

/-- Number of REJECT votes among the latest vote per distinct voter. -/
def rejectCount (votes : List CastVote) : Nat :=
  ((latestPerVoter votes).filter (fun v => v.vote = Vote.REJECT)).length

/-- Modelled from the spec: the decision resolver (`resolveDecision`) is not
in the provided sources (only the `VendorVote` table it reads is); the spec
fixes its policy: count ACCEPT and REJECT among the most recent vote per
distinct voter; accept-count > reject-count gives ACCEPTED, reject-count >
accept-count gives REJECTED, equal counts (including zero votes) give
PENDING. -/
def resolveDecision (votes : List CastVote) : Decision :=
  if acceptCount votes > rejectCount votes then Decision.ACCEPTED
  else if rejectCount votes > acceptCount votes then Decision.REJECTED
  else Decision.PENDING

/-! ## Persisted vote rows and the voting endpoint -/

/-- A persisted `VendorVote` row (`prisma/schema.prisma` lines 175–184):
`vendorId`, `userId`, `vote`, with `@@unique([vendorId, userId])`. -/
structure VendorVoteRow where
  vendorId : Nat
  userId : Nat
  vote : Vote
deriving DecidableEq, Repr

/-- Modelled from the spec: the voting endpoint is not in the provided
sources; the spec says it upserts keyed on (vendorId, userId): a new vote by
a user who already voted on that vendor replaces the prior row, otherwise a
new row is added. -/
def upsertVote (rows : List VendorVoteRow) (v : VendorVoteRow) :
    List VendorVoteRow :=
  if rows.any (fun r => r.vendorId = v.vendorId ∧ r.userId = v.userId) then
    rows.map (fun r =>
      if r.vendorId = v.vendorId ∧ r.userId = v.userId then v else r)
  else
    rows ++ [v]

/-- The persisted states of the `VendorVote` table reachable from the empty
table by casting votes through the voting endpoint. -/
inductive ReachableVotes : List VendorVoteRow → Prop where
  | empty : ReachableVotes []
  | step (rows : List VendorVoteRow) (v : VendorVoteRow) :
      ReachableVotes rows → ReachableVotes (upsertVote rows v)

/-- At most one row per (vendorId, userId): key pairwise-distinctness. -/
def uniqueVoteKeys (rows : List VendorVoteRow) : Prop :=
  rows.Pairwise (fun r s => ¬(r.vendorId = s.vendorId ∧ r.userId = s.userId))

/-! ## Evaluation submission endpoint -/

/-- The body of an evaluation submission request as sent by
`handleSubmitEvaluation`: a (possibly partial) per-criterion numeric mapping,
the client-computed `overallScore`, and the identifiers. -/
structure SubmissionRequest where
  criteria : Criterion → Option ℚ
  clientOverallScore : ℚ
  vendorId : Nat
  evaluatorId : Nat

/-- A persisted `Evaluation` record as far as the claims need it: the stored
criterion scores and the stored overall score. -/
structure StoredEvaluation where
  scores : Scores
  overallScore : ℚ
  vendorId : Nat
  evaluatorId : Nat
deriving DecidableEq

/-- Whether a submitted criterion value is valid: present and within
[0, 10]. -/
def validValue : Option ℚ → Bool
  | none => false
  | some q => 0 ≤ q ∧ q ≤ 10

/-- Modelled from the spec: the server-side validation of the evaluation
submission endpoint is not in the provided sources (only its client caller
`handleSubmitEvaluation` is); the spec requires every criterion key to be
present with a value in [0, 10]. -/
def validateSubmission (body : SubmissionRequest) : Bool :=
  allCriteria.all (fun c => validValue (body.criteria c))

/-- Assemble a total `Scores` record from a request body, defaulting absent
keys to 0 (the default is unreachable after validation). -/
def assembleScores (body : SubmissionRequest) : Scores where
  experienceScore := (body.criteria .experience).getD 0
  caseStudiesScore := (body.criteria .caseStudies).getD 0
  domainExperienceScore := (body.criteria .domainExperience).getD 0
  approachAlignmentScore := (body.criteria .approachAlignment).getD 0
  understandingChallengesScore :=
    (body.criteria .understandingChallenges).getD 0
  solutionTailoringScore := (body.criteria .solutionTailoring).getD 0
  strategyAlignmentScore := (body.criteria .strategyAlignment).getD 0
  methodologyScore := (body.criteria .methodology).getD 0
  innovativeStrategiesScore := (body.criteria .innovativeStrategies).getD 0
  stakeholderEngagementScore := (body.criteria .stakeholderEngagement).getD 0
  toolsFrameworkScore := (body.criteria .toolsFramework).getD 0
  costStructureScore := (body.criteria .costStructure).getD 0
  costEffectivenessScore := (body.criteria .costEffectiveness).getD 0
  roiScore := (body.criteria .roi).getD 0
  referencesScore := (body.criteria .references).getD 0
  testimonialsScore := (body.criteria .testimonials).getD 0
  sustainabilityScore := (body.criteria .sustainability).getD 0
  deliverablesScore := (body.criteria .deliverables).getD 0

/-- Modelled from the spec: the server-side evaluation submission endpoint is
not in the provided sources; the spec says it rejects any submission missing
a required key or holding a value outside [0, 10] before invoking the
aggregator, and otherwise persists an `Evaluation` whose `overallScore` is
recomputed server-side from the criterion scores, ignoring any client-sent
`overallScore`. -/
def submitEvaluation (body : SubmissionRequest) :
    Except String StoredEvaluation :=
  if validateSubmission body then
    let scores := assembleScores body
    Except.ok
      { scores := scores
        overallScore := calculateWeightedScore scores
        vendorId := body.vendorId
        evaluatorId := body.evaluatorId }
  else
    Except.error "Invalid evaluation submission"

/-! ## Deployment-error API handler -/

/-- JavaScript falsiness of an optional string field of a request body:
absent fields and the empty string are falsy. -/
def falsyStr : Option String → Bool
  | none => true
  | some s => s = ""

/-- A request to the deployment-error API route, as far as the handler in
`src/pages/api/deployment/errors.ts` reads it. -/
structure ErrorsRequest where
  method : String
  errorMessage : Option String
  errorStack : Option String
  errorCode : Option String
  environment : Option String
  component : Option String
deriving DecidableEq, Repr

/-- A persisted `DeploymentError` row, the fields the handler writes. -/
structure DeploymentErrorRow where
  errorMessage : String
  errorStack : Option String
  errorCode : Option String
  environment : String
  component : Option String
deriving DecidableEq, Repr

/-- Embedding of the deployment-error API `handler` in
`src/pages/api/deployment/errors.ts`: returns the HTTP status and the
resulting `DeploymentError` table. Methods other than GET and POST get 405;
GET reads without writing; a POST whose `errorMessage` or `environment` is
falsy gets 400 without a write; otherwise a row is created and 201
returned. -/
def errorsHandler (req : ErrorsRequest) (db : List DeploymentErrorRow) :
    Nat × List DeploymentErrorRow :=
  if req.method ≠ "POST" ∧ req.method ≠ "GET" then (405, db)
  else if req.method = "GET" then (200, db)
  else if falsyStr req.errorMessage ∨ falsyStr req.environment then (400, db)
  else
    (201, db ++
      [{ errorMessage := req.errorMessage.getD ""
         errorStack := req.errorStack
         errorCode := req.errorCode
         environment := req.environment.getD ""
         component := req.component }])

/-! ## Database connection retry loop -/

/-- Embedding of `connectDB` from `server.js` lines 45–81. The connection
attempts are an oracle `attempt : Nat → Bool` (the k-th attempt succeeds or
fails); the mutable globals `isConnected` and `connectionRetries` are
explicit arguments; the result is the returned boolean together with the
number of recursive self-calls made. If already connected it returns true at
once; a successful attempt resets the retry counter and returns true; a
failed attempt recurses while `connectionRetries < MAX_RETRIES`, incrementing
the counter, and returns false once the bound is reached. -/
def connectDB (maxRetries : Nat) (attempt : Nat → Bool) (isConnected : Bool)
    (retries k : Nat) : Bool × Nat :=
  if isConnected then (true, 0)
  else if attempt k then (true, 0)
  else if h : retries < maxRetries then
    let rec_result := connectDB maxRetries attempt false (retries + 1) (k + 1)
    (rec_result.1, rec_result.2 + 1)
  else (false, 0)
termination_by maxRetries - retries
decreasing_by omega

/-! ## Concrete sample inputs used by the witnesses -/

/-- A fully populated submission body: every criterion scored 5. -/
def sampleCriteria : Criterion → Option ℚ := fun _ => some 5

/-- A valid submission whose client claims `overallScore = 37`. -/
def sampleBody1 : SubmissionRequest :=
  { criteria := sampleCriteria, clientOverallScore := 37,
    vendorId := 1, evaluatorId := 1 }

/-- The same submission except the client claims `overallScore = 99`. -/
def sampleBody2 : SubmissionRequest :=
  { criteria := sampleCriteria, clientOverallScore := 99,
    vendorId := 1, evaluatorId := 1 }

/-- A submission missing the experience criterion. -/
def invalidBody : SubmissionRequest :=
  { criteria := fun c => if c = Criterion.experience then none else some 5,
    clientOverallScore := 0, vendorId := 1, evaluatorId := 1 }

/-- A request with an unsupported HTTP method. -/
def putReq : ErrorsRequest :=
  { method := "PUT", errorMessage := some "boom", errorStack := none,
    errorCode := none, environment := some "production", component := none }

/-- A POST request missing the required `environment` field. -/
def postReqMissingEnv : ErrorsRequest :=
  { method := "POST", errorMessage := some "boom", errorStack := none,
    errorCode := none, environment := none, component := none }

/-! ## Helper lemmas -/

lemma criterion_mem_allCriteria (c : Criterion) : c ∈ allCriteria := by
  cases c <;> decide

lemma upsert_unique (rows : List VendorVoteRow) (v : VendorVoteRow)
    (h : uniqueVoteKeys rows) : uniqueVoteKeys (upsertVote rows v) := by
  unfold upsertVote uniqueVoteKeys at *
  split
  case isTrue hp =>
    rw [List.pairwise_map]
    refine h.imp ?_
    intro a b hab
    by_cases ha : a.vendorId = v.vendorId ∧ a.userId = v.userId <;>
      by_cases hb : b.vendorId = v.vendorId ∧ b.userId = v.userId <;>
        simp [ha, hb] at * <;> omega
  case isFalse hp =>
    rw [List.pairwise_append]
    refine ⟨h, List.pairwise_singleton _ _, ?_⟩
    intro r hr w hw
    simp only [List.mem_singleton] at hw
    subst hw
    simp only [List.any_eq_true, decide_eq_true_eq] at hp
    push_neg at hp
    exact fun hc => hp r hr hc.1 hc.2

lemma upsert_replaces (rows : List VendorVoteRow) (v : VendorVoteRow)
    (hp : rows.any
      (fun r => r.vendorId = v.vendorId ∧ r.userId = v.userId) = true) :
    (upsertVote rows v).length = rows.length ∧ v ∈ upsertVote rows v := by
  unfold upsertVote
  rw [if_pos hp]
  refine ⟨List.length_map _ _, ?_⟩
  rw [List.any_eq_true] at hp
  obtain ⟨r, hr, hpr⟩ := hp
  rw [decide_eq_true_eq] at hpr
  exact List.mem_map.2 ⟨r, hr, by rw [if_pos hpr]⟩

lemma reachable_unique (rows : List VendorVoteRow) (h : ReachableVotes rows) :
    uniqueVoteKeys rows := by
  induction h with
  | empty => exact List.Pairwise.nil
  | step rows v _ ih => exact upsert_unique rows v ih

lemma connectDB_depth_le (m : Nat) (a : Nat → Bool) (c : Bool) (r k : Nat) :
    (connectDB m a c r k).2 ≤ m - r := by
  induction c, r, k using connectDB.induct m a with
  | case1 r k => unfold connectDB; simp
  | case2 c r k hc ha =>
      unfold connectDB
      simp only [Bool.not_eq_true] at hc
      simp [hc, ha]
  | case3 c r k hc ha hlt ih =>
      unfold connectDB
      simp only [Bool.not_eq_true] at hc
      simp [hc, ha, hlt]
      omega
  | case4 c r k hc ha hge =>
      unfold connectDB
      simp only [Bool.not_eq_true] at hc
      simp [hc, ha, hge]

lemma connectDB_allfail (m : Nat) (a : Nat → Bool)
    (h : ∀ n, a n = false) :
    ∀ (c : Bool) (r k : Nat), c = false → (connectDB m a c r k).1 = false := by
  intro c r k
  induction c, r, k using connectDB.induct m a with
  | case1 r k => intro hcf; cases hcf
  | case2 c r k hc ha => rw [h k] at ha; cases ha
  | case3 c r k hc ha hlt ih =>
      intro hcf
      unfold connectDB
      simp [hcf, ha, hlt]
      exact ih rfl
  | case4 c r k hc ha hge =>
      intro hcf
      unfold connectDB
      simp [hcf, ha, hge]

lemma connectDB_true_succeeds (m : Nat) (a : Nat → Bool) :
    ∀ (c : Bool) (r k : Nat),
      (connectDB m a c r k).1 = true → c = true ∨ ∃ n, a n = true := by
  intro c r k
  induction c, r, k using connectDB.induct m a with
  | case1 r k => exact fun _ => Or.inl rfl
  | case2 c r k hc ha => exact fun _ => Or.inr ⟨k, ha⟩
  | case3 c r k hc ha hlt ih =>
      intro h
      unfold connectDB at h
      simp only [Bool.not_eq_true] at hc
      simp [hc, ha, hlt] at h
      rcases ih h with h' | h'
      · cases h'
      · exact Or.inr h'
  | case4 c r k hc ha hge =>
      intro h
      unfold connectDB at h
      simp only [Bool.not_eq_true] at hc
      simp [hc, ha, hge] at h

/-! ## Claim theorems -/

/-- C1: for every criterion-score mapping, the category-grouped computation
of `calculateWeightedScore` equals the per-criterion reference formula: the
sum over all 18 leaf criteria of (value / 10) × weight × 100 with the fixed
leaf weight fractions. -/
theorem calculateWeightedScore_eq_referenceScore (s : Scores) :
    calculateWeightedScore s = referenceScore s := by
  simp [calculateWeightedScore, referenceScore, allCriteria, scoreValue,
    weight]
  ring

/-- C2: `resolveDecision` counts ACCEPT and REJECT among the most recent
vote per distinct voter and returns ACCEPTED when accept-count exceeds
reject-count, REJECTED when reject-count exceeds accept-count, and PENDING
when the counts are equal (including zero votes); moreover the four example
vote sequences of the spec resolve as stated: [ACCEPT, ACCEPT, REJECT] by
three voters gives ACCEPTED, [ACCEPT, REJECT] by two voters gives PENDING,
no votes gives PENDING, and ACCEPT then REJECT by one voter counts as one
REJECT and gives REJECTED. -/
theorem resolveDecision_spec (votes : List CastVote) :
    resolveDecision votes =
      (if rejectCount votes < acceptCount votes then Decision.ACCEPTED
       else if acceptCount votes < rejectCount votes then Decision.REJECTED
       else Decision.PENDING) ∧
    resolveDecision [⟨1, .ACCEPT⟩, ⟨2, .ACCEPT⟩, ⟨3, .REJECT⟩] =
      Decision.ACCEPTED ∧
    resolveDecision [⟨1, .ACCEPT⟩, ⟨2, .REJECT⟩] = Decision.PENDING ∧
    resolveDecision [] = Decision.PENDING ∧
    resolveDecision [⟨1, .ACCEPT⟩, ⟨1, .REJECT⟩] = Decision.REJECTED :=
  ⟨rfl, by decide, by decide, by decide, by decide⟩

/-- C3: the stored `overallScore` never comes from the client: two
submission requests that agree on all criterion scores produce the same
stored `overallScore` regardless of their client-supplied `overallScore`
fields, and every stored evaluation's `overallScore` equals the server-side
recomputation from its criterion scores. -/
theorem overallScore_server_recomputed (b1 b2 : SubmissionRequest)
    (h : b1.criteria = b2.criteria) :
    Except.map StoredEvaluation.overallScore (submitEvaluation b1) =
      Except.map StoredEvaluation.overallScore (submitEvaluation b2) ∧
    ∀ e, submitEvaluation b1 = Except.ok e →
      e.overallScore = calculateWeightedScore e.scores := by
  have hv : validateSubmission b1 = validateSubmission b2 := by
    simp [validateSubmission, h]
  have ha : assembleScores b1 = assembleScores b2 := by
    simp [assembleScores, h]
  constructor
  · simp only [submitEvaluation, hv, ha]
    split <;> rfl
  · intro e he
    simp only [submitEvaluation] at he
    split at he
    · cases he
      rfl
    · cases he

/-- C3 witness: two concrete valid submissions agreeing on every criterion
score but claiming client overall scores 37 and 99 store the same
recomputed overall score. -/
theorem overallScore_server_recomputed_witness :
    sampleBody1.criteria = sampleBody2.criteria ∧
    (Except.map StoredEvaluation.overallScore (submitEvaluation sampleBody1) =
       Except.map StoredEvaluation.overallScore (submitEvaluation sampleBody2) ∧
     ∀ e, submitEvaluation sampleBody1 = Except.ok e →
       e.overallScore = calculateWeightedScore e.scores) :=
  ⟨rfl, overallScore_server_recomputed sampleBody1 sampleBody2 rfl⟩

/-- C4: the 18 leaf weight fractions sum to exactly 1, and the six category
groupings sum to 25%, 20%, 26%, 14%, 10% and 5% respectively, in exact
rational arithmetic. -/
theorem weightTable_sums :
    (allCriteria.map weight).sum = 1 ∧
    (experienceCriteria.map weight).sum = 25/100 ∧
    (objectivesCriteria.map weight).sum = 20/100 ∧
    (methodologyCriteria.map weight).sum = 26/100 ∧
    (costCriteria.map weight).sum = 14/100 ∧
    (referencesCriteria.map weight).sum = 10/100 ∧
    (deliverablesCriteria.map weight).sum = 5/100 := by
  refine ⟨?_, ?_, ?_, ?_, ?_, ?_, ?_⟩ <;>
    simp [allCriteria, experienceCriteria, objectivesCriteria,
      methodologyCriteria, costCriteria, referencesCriteria,
      deliverablesCriteria, weight] <;> norm_num

/-- C5: the all-tens score mapping yields exactly 100 and the all-zeros
mapping yields exactly 0 (exact equality, hence within any positive
epsilon). -/
theorem calculateWeightedScore_extremes :
    calculateWeightedScore (constScores 10) = 100 ∧
    calculateWeightedScore (constScores 0) = 0 := by
  constructor <;> simp [calculateWeightedScore, constScores] <;> norm_num

/-- C6: `calculateWeightedScore` is homogeneous: scaling every criterion
value by a factor k in [0, 1] scales the overall score by k. -/
theorem calculateWeightedScore_homogeneous (s : Scores) (k : ℚ)
    (h0 : 0 ≤ k) (h1 : k ≤ 1) :
    calculateWeightedScore (scaleScores k s) =
      k * calculateWeightedScore s := by
  simp [calculateWeightedScore, scaleScores]
  ring

/-- C6 witness: halving an all-tens evaluation halves the overall score. -/
theorem calculateWeightedScore_homogeneous_witness :
    (0:ℚ) ≤ 1/2 ∧ (1:ℚ)/2 ≤ 1 ∧
    calculateWeightedScore (scaleScores (1/2) (constScores 10)) =
      (1/2) * calculateWeightedScore (constScores 10) :=
  ⟨one_half_pos.le, one_half_lt_one.le,
    calculateWeightedScore_homogeneous (constScores 10) (1/2)
      one_half_pos.le one_half_lt_one.le⟩

/-- C7: every persisted `VendorVote` state reachable through the voting
endpoint has at most one row per (vendorId, userId) pair, and casting a vote
whose key is already present replaces the prior row — the row count is
unchanged and the new vote is stored — rather than adding a second row. -/
theorem vendorVote_unique_and_replace (rows : List VendorVoteRow)
    (h : ReachableVotes rows) :
    uniqueVoteKeys rows ∧
    ∀ v : VendorVoteRow,
      rows.any
        (fun r => r.vendorId = v.vendorId ∧ r.userId = v.userId) = true →
      (upsertVote rows v).length = rows.length ∧ v ∈ upsertVote rows v :=
  ⟨reachable_unique rows h, fun v hp => upsert_replaces rows v hp⟩

/-- C7 witness: after user 1 votes ACCEPT on vendor 1, the table holds one
row with distinct keys, and a REJECT re-vote by the same user replaces it. -/
theorem vendorVote_unique_and_replace_witness :
    ReachableVotes [⟨1, 1, Vote.ACCEPT⟩] ∧
    uniqueVoteKeys [⟨1, 1, Vote.ACCEPT⟩] ∧
    (upsertVote [⟨1, 1, Vote.ACCEPT⟩] ⟨1, 1, Vote.REJECT⟩).length = 1 ∧
    (⟨1, 1, Vote.REJECT⟩ : VendorVoteRow) ∈
      upsertVote [⟨1, 1, Vote.ACCEPT⟩] ⟨1, 1, Vote.REJECT⟩ := by
  have hr : ReachableVotes [⟨1, 1, Vote.ACCEPT⟩] := by
    have hstep :=
      ReachableVotes.step [] ⟨1, 1, Vote.ACCEPT⟩ ReachableVotes.empty
    simpa [upsertVote] using hstep
  have hmain := vendorVote_unique_and_replace [⟨1, 1, Vote.ACCEPT⟩] hr
  have hrep := hmain.2 ⟨1, 1, Vote.REJECT⟩ (by decide)
  exact ⟨hr, hmain.1, hrep.1, hrep.2⟩

/-- C8: a submission missing a required criterion key or holding a value
outside [0, 10] is rejected at the validation boundary: the endpoint returns
an error and no evaluation (in particular no aggregated score) is
produced. -/
theorem submission_rejected_before_aggregation (b : SubmissionRequest)
    (h : ∃ c, b.criteria c = none ∨
        ∃ q, b.criteria c = some q ∧ (q < 0 ∨ 10 < q)) :
    submitEvaluation b = Except.error "Invalid evaluation submission" := by
  have hv : validateSubmission b = false := by
    obtain ⟨c, hc⟩ := h
    rw [validateSubmission]
    by_contra hall
    rw [Bool.not_eq_false, List.all_eq_true] at hall
    have hvc := hall c (criterion_mem_allCriteria c)
    rcases hc with hc | ⟨q, hq, hout⟩
    · rw [hc] at hvc
      simp [validValue] at hvc
    · rw [hq] at hvc
      simp [validValue] at hvc
      rcases hout with hlt | hgt
      · linarith [hvc.1]
      · linarith [hvc.2]
  simp [submitEvaluation, hv]

/-- C8 witness: the submission missing the experience criterion is rejected
with the validation error. -/
theorem submission_rejected_before_aggregation_witness :
    (∃ c, invalidBody.criteria c = none ∨
       ∃ q, invalidBody.criteria c = some q ∧ (q < 0 ∨ 10 < q)) ∧
    submitEvaluation invalidBody =
      Except.error "Invalid evaluation submission" :=
  ⟨⟨Criterion.experience, Or.inl rfl⟩,
   submission_rejected_before_aggregation invalidBody
     ⟨Criterion.experience, Or.inl rfl⟩⟩

/-- C9: the deployment-error handler returns 405 with no state change for
every method other than GET and POST, and a POST missing `errorMessage` or
`environment` returns 400 and creates no `DeploymentError` record. -/
theorem errorsHandler_method_and_validation (req : ErrorsRequest)
    (db : List DeploymentErrorRow) :
    (req.method ≠ "GET" ∧ req.method ≠ "POST" →
      errorsHandler req db = (405, db)) ∧
    (req.method = "POST" →
      (req.errorMessage = none ∨ req.environment = none) →
      errorsHandler req db = (400, db)) := by
  constructor
  · intro hm
    simp [errorsHandler, hm.1, hm.2]
  · intro hm hmiss
    rcases hmiss with hnone | hnone <;>
      simp [errorsHandler, hm, hnone, falsyStr]

/-- C9 witness: a PUT request gets 405 and a POST without `environment`
gets 400, both leaving the empty table empty. -/
theorem errorsHandler_method_and_validation_witness :
    ("PUT" ≠ "GET" ∧ "PUT" ≠ "POST") ∧
    errorsHandler putReq [] = (405, []) ∧
    errorsHandler postReqMissingEnv [] = (400, []) :=
  ⟨⟨by decide, by decide⟩,
   (errorsHandler_method_and_validation putReq []).1 ⟨by decide, by decide⟩,
   (errorsHandler_method_and_validation postReqMissingEnv []).2 rfl
     (Or.inr rfl)⟩

/-- C10: `connectDB` terminates: starting disconnected with retry counter r
it makes at most MAX_RETRIES − r recursive calls; when every connection
attempt fails it returns false; and it returns true only if it was already
connected or some attempt succeeds. -/
theorem connectDB_retry_bounded (m : Nat) (a : Nat → Bool) (r k : Nat) :
    (connectDB m a false r k).2 ≤ m - r ∧
    ((∀ n, a n = false) → (connectDB m a false r k).1 = false) ∧
    (∀ c : Bool, (connectDB m a c r k).1 = true →
      c = true ∨ ∃ n, a n = true) :=
  ⟨connectDB_depth_le m a false r k,
   fun h => connectDB_allfail m a h false r k rfl,
   fun c h => connectDB_true_succeeds m a c r k h⟩

/-- C10 witness: with MAX_RETRIES = 3 and every attempt failing, the loop
makes at most 3 recursive calls and returns false; with a succeeding
attempt and an already-open connection the true-result case is realized. -/
theorem connectDB_retry_bounded_witness :
    (connectDB 3 (fun _ => false) false 0 0).2 ≤ 3 - 0 ∧
    (connectDB 3 (fun _ => false) false 0 0).1 = false ∧
    (true = true ∨ ∃ n, (fun _ : Nat => true) n = true) :=
  ⟨(connectDB_retry_bounded 3 (fun _ => false) 0 0).1,
   (connectDB_retry_bounded 3 (fun _ => false) 0 0).2.1 (fun _ => rfl),
   (connectDB_retry_bounded 3 (fun _ => true) 0 0).2.2 true
     (by simp [connectDB])⟩

end RfiTracker
